import Mathlib

/-!
Shallow embedding of the midi-proxy repository (src/device/device.py and
src/client/client.py), followed by theorems about the embedded code.

Modelling conventions:
* Python byte lists become `List Nat` (MIDI data is 7/8-bit, Python ints are
  unbounded; no overflow occurs anywhere in the source).
* Python list indexing `xs[i]` for a nonnegative literal index becomes
  `List.get?`; an out-of-range access (Python `IndexError`) is propagated as
  `none` through the `Option` monad.  `xs[-1]` under a nonempty guard becomes
  `List.getLast?`.
* The device's externally visible effects (MIDI sends over the transport and
  appends to the action log) are collected in a `DeviceOut` record; `print`
  calls produce no modelled effect, but index accesses inside their f-strings
  are modelled since they can raise.
* The fallible collaborators are modelled by two flags: `logOk` (the
  `open`/`write` of the log file does not raise `IOError`) and `outPortOpen`
  (`midi_out.is_port_open()` — when false, `send_midi_message` is a no-op).
-/

/-! ### Constants (src/device/device.py lines 5-21) -/

def SYSEX_START : Nat := 0xF0
def SYSEX_END : Nat := 0xF7
def UNIVERSAL_NON_REALTIME_SYSEX : Nat := 0x7E
def GENERAL_INFORMATION : Nat := 0x06
def IDENTITY_REQUEST : Nat := 0x01
def IDENTITY_REPLY : Nat := 0x02
def MANUFACTURER_ID : Nat := 0x7D
def DEVICE_ID_SYSEX : Nat := 0x01
def COMMAND_TRIGGER_ACTION : Nat := 0x03
def ACTION_ID_LOG : Nat := 0x01

/-- Observable effects of one call into the device's MIDI callback:
the MIDI messages sent over the transport and the records appended to the
action log file, each in order. -/
structure DeviceOut where
  sent : List (List Nat)
  logged : List String
deriving DecidableEq

/-- Python `str` of a list of ints, e.g. `[240, 125, 1]`, as produced by the
f-string `f"...{original_message}"` in `_handle_trigger_action`. -/
def pyListStr (xs : List Nat) : String :=
  "[" ++ String.intercalate ", " (xs.map toString) ++ "]"

/-- Model of `Device.send_midi_message` (device.py lines 169-174): sends the
message when the output port is open, otherwise prints and does nothing. -/
def send_midi_message (outPortOpen : Bool) (message : List Nat) : List (List Nat) :=
  if outPortOpen then [message] else []

/-- The constant identity-reply frame built by `Device._handle_identity_request`
(device.py lines 80-91). -/
def identityReply : List Nat :=
  [SYSEX_START, UNIVERSAL_NON_REALTIME_SYSEX, 0x7F, GENERAL_INFORMATION,
   IDENTITY_REPLY, MANUFACTURER_ID,
   0x01, 0x01, 0x01, 0x01, 0x01, 0x01, 0x01, 0x01, SYSEX_END]

/-- Model of `Device._handle_identity_request` (device.py lines 77-92). -/
def handle_identity_request (outPortOpen : Bool) (_message_bytes : List Nat) : DeviceOut :=
  { sent := send_midi_message outPortOpen identityReply, logged := [] }

/-- The log record written by `Device._handle_trigger_action` (device.py
line 115). -/
def trigger_log_content (action_id : Nat) (original_message : List Nat) : String :=
  "TriggerAction: ID=" ++ toString action_id ++ ", FullMsg=" ++
    pyListStr original_message ++ "\n"

/-- Model of `Device._handle_trigger_action` (device.py lines 112-125).
When `action_id == ACTION_ID_LOG`, the log write and the reply send happen
inside one `try` block, the send after the write: if the write raises
`IOError` (`logOk = false`), control jumps to the `except` branch and the
reply is never sent. -/
def handle_trigger_action (logOk outPortOpen : Bool) (action_id : Nat)
    (original_message : List Nat) : DeviceOut :=
  if action_id = ACTION_ID_LOG then
    if logOk then
      { sent := send_midi_message outPortOpen original_message,
        logged := [trigger_log_content action_id original_message] }
    else
      { sent := [], logged := [] }
  else
    { sent := [], logged := [] }

/-- Model of `Device._handle_custom_sysex` (device.py lines 94-110).  All
index accesses are guarded by the initial length check and by short-circuit
evaluation, mirrored here with `Option.bind` over `List.get?`. -/
def handle_custom_sysex (logOk outPortOpen : Bool) (message_bytes : List Nat) :
    Option DeviceOut :=
  if message_bytes.length < 5 then some { sent := [], logged := [] }
  else do
    let b1 ← message_bytes.get? 1
    if b1 ≠ MANUFACTURER_ID then some { sent := [], logged := [] } else do
    let b2 ← message_bytes.get? 2
    if b2 ≠ DEVICE_ID_SYSEX then some { sent := [], logged := [] } else do
    let command_id ← message_bytes.get? 3
    if command_id = COMMAND_TRIGGER_ACTION then
      if message_bytes.length ≥ 6 then do
        let action_id ← message_bytes.get? 4
        some (handle_trigger_action logOk outPortOpen action_id message_bytes)
      else some { sent := [], logged := [] }
    else some { sent := [], logged := [] }

/-- The identity-request branch condition of `Device.on_midi_message`
(device.py lines 140-145): length 6 and bytes 0, 1, 3, 4, 5 fixed.  Note the
source never tests byte 2 (the target device id). -/
def isIdentityRequestFrame (m : List Nat) : Bool :=
  m.length = 6 &&
  m.get? 0 = some SYSEX_START &&
  m.get? 1 = some UNIVERSAL_NON_REALTIME_SYSEX &&
  m.get? 3 = some GENERAL_INFORMATION &&
  m.get? 4 = some IDENTITY_REQUEST &&
  m.get? 5 = some SYSEX_END

/-- The channel-voice / system-common / fallthrough branches of
`Device.on_midi_message` (device.py lines 153-167).  The Note On, Note Off
and Control Change observation prints index `message_bytes[1]` and
`message_bytes[2]` without a length guard; those accesses raise `IndexError`
(modelled as `none`) on short messages. -/
def channel_or_system_branch (message_bytes : List Nat) (status_byte : Nat) :
    Option DeviceOut :=
  if 0x80 ≤ status_byte ∧ status_byte ≤ 0xEF then
    let message_type := status_byte &&& 0xF0
    if message_type = 0x90 ∨ message_type = 0x80 ∨ message_type = 0xB0 then do
      let _ ← message_bytes.get? 1
      let _ ← message_bytes.get? 2
      some { sent := [], logged := [] }
    else some { sent := [], logged := [] }
  else some { sent := [], logged := [] }

/-- Model of `Device.on_midi_message` (device.py lines 127-167), the device's
classification-and-dispatch entry point.  The result is `none` exactly when
the Python code would raise an uncaught exception, and otherwise carries the
transport sends and log appends the call performs. -/
def on_midi_message (logOk outPortOpen : Bool) (message_bytes : List Nat) :
    Option DeviceOut :=
  if message_bytes = [] then some { sent := [], logged := [] }
  else do
    let status_byte ← message_bytes.get? 0
    if status_byte = SYSEX_START then
      if message_bytes.getLast? = some SYSEX_END then
        if isIdentityRequestFrame message_bytes then
          some (handle_identity_request outPortOpen message_bytes)
        else do
          let b1 ← message_bytes.get? 1
          if b1 = MANUFACTURER_ID then do
            let b2 ← message_bytes.get? 2
            if b2 = DEVICE_ID_SYSEX then
              handle_custom_sysex logOk outPortOpen message_bytes
            else some { sent := [], logged := [] }
          else some { sent := [], logged := [] }
      else channel_or_system_branch message_bytes status_byte
    else channel_or_system_branch message_bytes status_byte

/-! ### Client (src/client/client.py) -/

/-- What a client-side rtmidi port object is currently bound to. -/
inductive PortBinding where
  | unbound
  | virtualPort (name : String)
  | devicePort (idx : Nat)
deriving DecidableEq

/-- Transport-level operations issued by the client, in order, used to state
which legs of the handshake were attempted. -/
inductive MidiAction where
  | enumOutPorts
  | enumInPorts
  | closeOut
  | closeIn
  | openOut (i : Nat)
  | openIn (i : Nat)
  | openVirtualOut (name : String)
  | openVirtualIn (name : String)
  | setCallback
deriving DecidableEq

/-- Client-side state: the fields of `Client.__init__` (client.py lines
20-31) that the modelled methods read or write.  Transport operations are
modelled as succeeding (the spec treats the transport as an opaque
collaborator and the repository's unit tests mock it the same way). -/
structure Client where
  client_port_name : String
  target_device_in_port_name : Option String
  target_device_out_port_name : Option String
  inBinding : PortBinding
  outBinding : PortBinding
  callbackSet : Bool
  received_messages : List (List Nat)
deriving DecidableEq

/-- Python's substring test `needle in hay` on strings, over char lists. -/
def listIsPre : List Char → List Char → Bool
  | [], _ => true
  | _ :: _, [] => false
  | a :: as, b :: bs => a = b && listIsPre as bs

/-- Python `needle in hay` for strings: some suffix of `hay` starts with
`needle`. -/
def pyInStr (needle hay : String) : Bool :=
  go needle.toList hay.toList
where
  go (n : List Char) : List Char → Bool
    | [] => listIsPre n []
    | c :: cs => listIsPre n (c :: cs) || go n cs

/-- Model of `Client._open_client_ports` (client.py lines 33-52): opens the
client's own virtual input and output ports (named from
`client_port_name`) and re-installs the receive callback. -/
def open_client_ports (c : Client) : Client × List MidiAction :=
  ({ c with
      inBinding := PortBinding.virtualPort (c.client_port_name ++ " In"),
      outBinding := PortBinding.virtualPort (c.client_port_name ++ " Out"),
      callbackSet := true },
   [MidiAction.openVirtualIn (c.client_port_name ++ " In"),
    MidiAction.openVirtualOut (c.client_port_name ++ " Out"),
    MidiAction.setCallback])

/-- Model of `Client.connect_to_device` (client.py lines 62-105).  Inputs
`available_ports` / `available_ports_in` are what the transport's
`get_ports()` enumerations return for the output and input direction.
Returns the boolean result, the updated client and the ordered trace of
transport operations performed. -/
def connect_to_device (c : Client) (available_ports available_ports_in : List String)
    (device_in_port_name_substr device_out_port_name_substr : String) :
    Bool × Client × List MidiAction :=
  let c0 := { c with
      target_device_in_port_name := some device_in_port_name_substr,
      target_device_out_port_name := some device_out_port_name_substr }
  match available_ports.findIdx? (fun port_name => pyInStr device_in_port_name_substr port_name) with
  | none => (false, c0, [MidiAction.enumOutPorts])
  | some i =>
    let c1 := { c0 with outBinding := PortBinding.devicePort i }
    let t1 := [MidiAction.enumOutPorts, MidiAction.closeOut, MidiAction.openOut i]
    match available_ports_in.findIdx? (fun port_name => pyInStr device_out_port_name_substr port_name) with
    | none =>
      let (c2, t2) := open_client_ports c1
      (false, c2, t1 ++ [MidiAction.enumInPorts] ++ t2)
    | some j =>
      (true,
       { c1 with inBinding := PortBinding.devicePort j, callbackSet := true },
       t1 ++ [MidiAction.enumInPorts, MidiAction.closeIn, MidiAction.openIn j,
              MidiAction.setCallback])

/-- Model of `Client.__init__` (client.py lines 20-31): fresh unbound state,
then `_open_client_ports`. -/
def Client.init (client_port_name : String) : Client × List MidiAction :=
  open_client_ports
    { client_port_name := client_port_name,
      target_device_in_port_name := none,
      target_device_out_port_name := none,
      inBinding := PortBinding.unbound,
      outBinding := PortBinding.unbound,
      callbackSet := false,
      received_messages := [] }

/-- Model of `Client.pop_received_message` (client.py lines 114-120).  Real
time is modelled by `clock : Nat → Rat`, the successive values returned by
`time.time()`: `clock 0` is `start_time`, `clock (k+1)` is the reading at
the k-th loop-condition test.  `fuel` bounds the number of loop iterations
modelled; `none` means the fuel ran out with the loop still running, and
`some (r, msgs)` means the call returned `r` leaving `msgs` buffered. -/
def pop_received_message (timeout_sec : Rat) (clock : Nat → Rat) (fuel : Nat)
    (received_messages : List (List Nat)) :
    Option (Option (List Nat) × List (List Nat)) :=
  go fuel 1 received_messages
where
  go : Nat → Nat → List (List Nat) → Option (Option (List Nat) × List (List Nat))
    | 0, _, _ => none
    | fuel + 1, k, msgs =>
      if clock k - clock 0 < timeout_sec then
        match msgs with
        | m :: rest => some (some m, rest)
        | [] => go fuel (k + 1) []
      else
        some (none, msgs)

/-! ### Helper lemmas -/

/-- The identity-request branch fires exactly on six-byte frames
`F0 7E x 06 01 F7`, for an arbitrary third byte `x`. -/
theorem identReqFrame_shape (m : List Nat) :
    isIdentityRequestFrame m = true ↔ ∃ x, m = [0xF0, 0x7E, x, 0x06, 0x01, 0xF7] := by
  constructor
  · intro h
    rcases m with _ | ⟨a, _ | ⟨b, _ | ⟨c, _ | ⟨d, _ | ⟨e, _ | ⟨f, t⟩⟩⟩⟩⟩⟩ <;>
      simp [isIdentityRequestFrame, SYSEX_START, UNIVERSAL_NON_REALTIME_SYSEX,
        GENERAL_INFORMATION, IDENTITY_REQUEST, SYSEX_END] at h
    obtain ⟨⟨⟨⟨⟨ht, ha⟩, hb⟩, hd⟩, he⟩, hf⟩ := h
    subst ht ha hb hd he hf
    exact ⟨c, rfl⟩
  · rintro ⟨x, rfl⟩
    rfl

/-- The last element of a cons cell followed by an append of a singleton. -/
theorem getLast?_cons_append (a x : Nat) (l : List Nat) :
    (a :: (l ++ [x])).getLast? = some x := by
  induction l generalizing a with
  | nil => rfl
  | cons b t ih => rw [List.cons_append, List.getLast?_cons_cons]; exact ih b

/-- A predicate false on every element yields no found index. -/
theorem findIdx?_eq_none_of_all_false (p : String → Bool) (l : List String)
    (h : ∀ x ∈ l, p x = false) : l.findIdx? p = none := by
  rw [List.findIdx?_eq_none_iff]
  intro x hx
  simp [h x hx]

/-! ### Claim theorems -/

/-- C1 counterexample: the six-byte frame `F0 7E 00 06 01 F7`, whose third
byte (the all-call target) is `0x00`, not `0x7F`, is nevertheless dispatched
as an identity request and produces the identity reply — the code never
tests byte 2, so the classification is not restricted to the exact frame
`F0 7E 7F 06 01 F7` and such a frame neither classifies as unrecognized nor
stays silent. -/
theorem C1_third_byte_not_7F_still_replies :
    on_midi_message true true [0xF0, 0x7E, 0x00, 0x06, 0x01, 0xF7] =
      some { sent := [identityReply], logged := [] } := by decide

/-- C1 (amended): classification yields IdentityRequest exactly on the
six-byte frames `F0 7E x 06 01 F7` for an arbitrary third byte `x` — the
all-call target byte is not checked — and every such frame produces the
identity reply. -/
theorem C1_identity_request_ignores_target_byte (m : List Nat) :
    (isIdentityRequestFrame m = true ↔ ∃ x, m = [0xF0, 0x7E, x, 0x06, 0x01, 0xF7]) ∧
    (isIdentityRequestFrame m = true →
      on_midi_message true true m = some { sent := [identityReply], logged := [] }) := by
  refine ⟨identReqFrame_shape m, fun h => ?_⟩
  obtain ⟨x, rfl⟩ := (identReqFrame_shape m).1 h
  rfl

/-- C1 witness: the amended theorem applied at the concrete frame
`F0 7E 05 06 01 F7`. -/
theorem C1_identity_request_ignores_target_byte_witness :
    isIdentityRequestFrame [0xF0, 0x7E, 0x05, 0x06, 0x01, 0xF7] = true ∧
    on_midi_message true true [0xF0, 0x7E, 0x05, 0x06, 0x01, 0xF7] =
      some { sent := [identityReply], logged := [] } :=
  ⟨by decide,
   (C1_identity_request_ignores_target_byte [0xF0, 0x7E, 0x05, 0x06, 0x01, 0xF7]).2 (by decide)⟩

/-- C2: the claim that classification never raises is contradicted by the
code at the one-byte channel-voice message `[0x90]`: the Note On observation
print indexes `message_bytes[1]` and `message_bytes[2]` without a length
guard, raising `IndexError` (result `none`).  The two-byte SysEx `F0 F7`
named by the claim, by contrast, does degrade to the unrecognized case. -/
theorem C2_short_note_on_raises :
    on_midi_message true true [0x90] = none ∧
    on_midi_message true true [0xF0, 0xF7] = some { sent := [], logged := [] } :=
  ⟨by decide, by decide⟩

/-- C3: every frame the device dispatches as an identity request yields
exactly one transport send and no log append, and that send is the constant
15-byte reply `F0 7E 7F 06 02 7D 01 01 01 01 01 01 01 01 F7`; the handler
reads no state, so the output is the same on every invocation. -/
theorem C3_identity_reply_constant (logOk : Bool) (m : List Nat)
    (h : isIdentityRequestFrame m = true) :
    on_midi_message logOk true m = some { sent := [identityReply], logged := [] } ∧
    identityReply =
      [0xF0, 0x7E, 0x7F, 0x06, 0x02, 0x7D,
       0x01, 0x01, 0x01, 0x01, 0x01, 0x01, 0x01, 0x01, 0xF7] := by
  obtain ⟨x, rfl⟩ := (identReqFrame_shape m).1 h
  exact ⟨by cases logOk <;> rfl, by decide⟩

/-- C3 witness: the theorem applied at the identity-request frame
`F0 7E 7F 06 01 F7`. -/
theorem C3_identity_reply_constant_witness :
    isIdentityRequestFrame [0xF0, 0x7E, 0x7F, 0x06, 0x01, 0xF7] = true ∧
    on_midi_message true true [0xF0, 0x7E, 0x7F, 0x06, 0x01, 0xF7] =
      some { sent := [identityReply], logged := [] } :=
  ⟨by decide,
   (C3_identity_reply_constant true [0xF0, 0x7E, 0x7F, 0x06, 0x01, 0xF7] (by decide)).1⟩

/-- C4: the frame `F0 7D 01 03 01 F7` (TriggerAction, action id 1) is echoed
back verbatim as the only transport send, and exactly one log record is
appended; that record contains the literal substring
`TriggerAction: ID=1` and the Python rendering of the frame's byte list. -/
theorem C4_trigger_action_echo_and_log :
    on_midi_message true true [0xF0, 0x7D, 0x01, 0x03, 0x01, 0xF7] =
      some { sent := [[0xF0, 0x7D, 0x01, 0x03, 0x01, 0xF7]],
             logged := ["TriggerAction: ID=1, FullMsg=[240, 125, 1, 3, 1, 247]\n"] } ∧
    (∃ pre post, "TriggerAction: ID=1, FullMsg=[240, 125, 1, 3, 1, 247]\n" =
      pre ++ "TriggerAction: ID=1" ++ post) ∧
    (∃ pre post, "TriggerAction: ID=1, FullMsg=[240, 125, 1, 3, 1, 247]\n" =
      pre ++ pyListStr [0xF0, 0x7D, 0x01, 0x03, 0x01, 0xF7] ++ post) :=
  ⟨by decide,
   ⟨"", ", FullMsg=[240, 125, 1, 3, 1, 247]\n", by decide⟩,
   ⟨"TriggerAction: ID=1, FullMsg=", "\n", by decide⟩⟩

/-- C9 counterexample: when the log write raises `IOError`
(`logOk = false`), `_handle_trigger_action` sends no reply at all — the
reply send sits inside the same `try` block after the write, so a log
failure does suppress the reply, contradicting the claimed independence of
the two side effects. -/
theorem C9_log_failure_suppresses_reply :
    handle_trigger_action false true 0x01 [0xF0, 0x7D, 0x01, 0x03, 0x01, 0xF7] =
      { sent := [], logged := [] } := by decide

/-- C9 (amended): the two side effects of the TriggerAction(0x01) handler
are not independent in the log-failure direction: a failed log write
suppresses the reply send, while a failed reply send (output port not open)
still leaves the log record written — no rollback in that direction only. -/
theorem C9_effects_ordering (m : List Nat) :
    handle_trigger_action false true 0x01 m = { sent := [], logged := [] } ∧
    handle_trigger_action true false 0x01 m =
      { sent := [], logged := [trigger_log_content 0x01 m] } :=
  ⟨rfl, rfl⟩

/-- C9 witness: the amended theorem applied at the concrete TriggerAction
frame `F0 7D 01 03 01 F7`. -/
theorem C9_effects_ordering_witness :
    handle_trigger_action false true 0x01 [0xF0, 0x7D, 0x01, 0x03, 0x01, 0xF7] =
      { sent := [], logged := [] } ∧
    handle_trigger_action true false 0x01 [0xF0, 0x7D, 0x01, 0x03, 0x01, 0xF7] =
      { sent := [],
        logged := [trigger_log_content 0x01 [0xF0, 0x7D, 0x01, 0x03, 0x01, 0xF7]] } :=
  C9_effects_ordering [0xF0, 0x7D, 0x01, 0x03, 0x01, 0xF7]

/-- C5: a TriggerAction frame `F0 7D 01 03 a ... F7` whose action id `a` is
not `0x01` produces no transport send and no log append, whatever the log
and port state. -/
theorem C5_unknown_action_id_silent (logOk outOpen : Bool) (a : Nat)
    (payload : List Nat) (ha : a ≠ 0x01) :
    on_midi_message logOk outOpen ([0xF0, 0x7D, 0x01, 0x03, a] ++ payload ++ [0xF7]) =
      some { sent := [], logged := [] } := by
  simp only [List.cons_append, List.nil_append]
  simp [on_midi_message, isIdentityRequestFrame, handle_custom_sysex,
    handle_trigger_action, getLast?_cons_append, SYSEX_START, SYSEX_END,
    UNIVERSAL_NON_REALTIME_SYSEX, GENERAL_INFORMATION, IDENTITY_REQUEST,
    MANUFACTURER_ID, DEVICE_ID_SYSEX, COMMAND_TRIGGER_ACTION, ACTION_ID_LOG, ha]

/-- C5 witness: the theorem applied at the frame `F0 7D 01 03 FF F7`. -/
theorem C5_unknown_action_id_silent_witness :
    on_midi_message true true ([0xF0, 0x7D, 0x01, 0x03, 0xFF] ++ [] ++ [0xF7]) =
      some { sent := [], logged := [] } :=
  C5_unknown_action_id_silent true true 0xFF [] (by decide)

/-- C6: a well-delimited custom SysEx frame `F0 7D d c ... F7` whose device
id `d` differs from `0x01` produces no transport send and no log append,
regardless of the command id `c` or the payload. -/
theorem C6_wrong_device_id_silent (logOk outOpen : Bool) (d c : Nat)
    (payload : List Nat) (hd : d ≠ 0x01) :
    on_midi_message logOk outOpen ([0xF0, 0x7D, d, c] ++ payload ++ [0xF7]) =
      some { sent := [], logged := [] } := by
  simp only [List.cons_append, List.nil_append]
  simp [on_midi_message, isIdentityRequestFrame, handle_custom_sysex,
    getLast?_cons_append, SYSEX_START, SYSEX_END, UNIVERSAL_NON_REALTIME_SYSEX,
    GENERAL_INFORMATION, IDENTITY_REQUEST, MANUFACTURER_ID, DEVICE_ID_SYSEX,
    COMMAND_TRIGGER_ACTION, hd]

/-- C6 witness: the theorem applied at the frame `F0 7D 02 03 01 F7`
(TriggerAction envelope addressed to device id 2). -/
theorem C6_wrong_device_id_silent_witness :
    on_midi_message true true ([0xF0, 0x7D, 0x02, 0x03] ++ [0x01] ++ [0xF7]) =
      some { sent := [], logged := [] } :=
  C6_wrong_device_id_silent true true 0x02 0x03 [0x01] (by decide)

/-- C7: when no enumerated output port name contains the device-inbound
substring, `connect_to_device` returns failure after the single outbound
enumeration: the inbound ports are never enumerated, no inbound port is
opened, and both port bindings are left unchanged. -/
theorem C7_outbound_fail_skips_inbound (c : Client)
    (available_ports available_ports_in : List String) (inSub outSub : String)
    (h : ∀ p ∈ available_ports, pyInStr inSub p = false) :
    (connect_to_device c available_ports available_ports_in inSub outSub).1 = false ∧
    (connect_to_device c available_ports available_ports_in inSub outSub).2.2 =
      [MidiAction.enumOutPorts] ∧
    (connect_to_device c available_ports available_ports_in inSub outSub).2.1.inBinding =
      c.inBinding ∧
    (connect_to_device c available_ports available_ports_in inSub outSub).2.1.outBinding =
      c.outBinding := by
  have hfind : available_ports.findIdx? (fun p => pyInStr inSub p) = none :=
    findIdx?_eq_none_of_all_false _ _ h
  simp [connect_to_device, hfind]

/-- C7 witness: the theorem applied to a freshly initialised client and an
output enumeration with no matching name. -/
theorem C7_outbound_fail_skips_inbound_witness :
    (connect_to_device (Client.init "Python Test Client").1 ["Some Port", "Another Port"]
        ["MockDevice MIDI Out"] "MockDevice MIDI In" "MockDevice MIDI Out").1 = false ∧
    (connect_to_device (Client.init "Python Test Client").1 ["Some Port", "Another Port"]
        ["MockDevice MIDI Out"] "MockDevice MIDI In" "MockDevice MIDI Out").2.2 =
      [MidiAction.enumOutPorts] ∧
    (connect_to_device (Client.init "Python Test Client").1 ["Some Port", "Another Port"]
        ["MockDevice MIDI Out"] "MockDevice MIDI In" "MockDevice MIDI Out").2.1.inBinding =
      (Client.init "Python Test Client").1.inBinding ∧
    (connect_to_device (Client.init "Python Test Client").1 ["Some Port", "Another Port"]
        ["MockDevice MIDI Out"] "MockDevice MIDI In" "MockDevice MIDI Out").2.1.outBinding =
      (Client.init "Python Test Client").1.outBinding :=
  C7_outbound_fail_skips_inbound _ _ _ _ _ (by decide)

/-- C8: when the outbound leg binds (some output port matches) but no input
port name contains the device-outbound substring, `connect_to_device`
returns failure and re-opens the client's own virtual inbound and outbound
endpoints (with the receive callback re-installed), leaving the client
usable standalone; the recovery openings appear in the operation trace. -/
theorem C8_inbound_fail_readvertises (c : Client)
    (available_ports available_ports_in : List String) (inSub outSub : String)
    (h1 : (available_ports.findIdx? (fun p => pyInStr inSub p)).isSome = true)
    (h2 : ∀ p ∈ available_ports_in, pyInStr outSub p = false) :
    (connect_to_device c available_ports available_ports_in inSub outSub).1 = false ∧
    (connect_to_device c available_ports available_ports_in inSub outSub).2.1.inBinding =
      PortBinding.virtualPort (c.client_port_name ++ " In") ∧
    (connect_to_device c available_ports available_ports_in inSub outSub).2.1.outBinding =
      PortBinding.virtualPort (c.client_port_name ++ " Out") ∧
    (connect_to_device c available_ports available_ports_in inSub outSub).2.1.callbackSet =
      true ∧
    MidiAction.openVirtualIn (c.client_port_name ++ " In") ∈
      (connect_to_device c available_ports available_ports_in inSub outSub).2.2 ∧
    MidiAction.openVirtualOut (c.client_port_name ++ " Out") ∈
      (connect_to_device c available_ports available_ports_in inSub outSub).2.2 := by
  obtain ⟨i, hi⟩ := Option.isSome_iff_exists.1 h1
  have hfind2 : available_ports_in.findIdx? (fun p => pyInStr outSub p) = none :=
    findIdx?_eq_none_of_all_false _ _ h2
  simp [connect_to_device, hi, hfind2, open_client_ports]

/-- C8 witness: the theorem applied to the spec's failing handshake example,
output ports enumerating a match but input ports only a non-match. -/
theorem C8_inbound_fail_readvertises_witness :
    (connect_to_device (Client.init "C").1 ["Other Port", "MockDevice MIDI In"]
        ["Some Other Input"] "MockDevice MIDI In" "MockDevice MIDI Out").1 = false ∧
    (connect_to_device (Client.init "C").1 ["Other Port", "MockDevice MIDI In"]
        ["Some Other Input"] "MockDevice MIDI In" "MockDevice MIDI Out").2.1.inBinding =
      PortBinding.virtualPort ("C" ++ " In") ∧
    (connect_to_device (Client.init "C").1 ["Other Port", "MockDevice MIDI In"]
        ["Some Other Input"] "MockDevice MIDI In" "MockDevice MIDI Out").2.1.outBinding =
      PortBinding.virtualPort ("C" ++ " Out") ∧
    (connect_to_device (Client.init "C").1 ["Other Port", "MockDevice MIDI In"]
        ["Some Other Input"] "MockDevice MIDI In" "MockDevice MIDI Out").2.1.callbackSet =
      true ∧
    MidiAction.openVirtualIn ("C" ++ " In") ∈
      (connect_to_device (Client.init "C").1 ["Other Port", "MockDevice MIDI In"]
        ["Some Other Input"] "MockDevice MIDI In" "MockDevice MIDI Out").2.2 ∧
    MidiAction.openVirtualOut ("C" ++ " Out") ∈
      (connect_to_device (Client.init "C").1 ["Other Port", "MockDevice MIDI In"]
        ["Some Other Input"] "MockDevice MIDI In" "MockDevice MIDI Out").2.2 :=
  C8_inbound_fail_readvertises _ _ _ _ _ (by decide) (by decide)

/-- C10: with a zero or negative timeout the polling loop's entry condition
is false at the very first test (elapsed time is nonnegative whenever the
clock is monotone from its start reading), so `pop_received_message`
returns `None` and leaves the buffered messages untouched, even when the
inbox is nonempty. -/
theorem C10_nonpositive_timeout_pops_nothing (timeout_sec : Rat)
    (clock : Nat → Rat) (fuel : Nat) (msgs : List (List Nat))
    (ht : timeout_sec ≤ 0) (hc : ∀ k, clock 0 ≤ clock k) (hf : 1 ≤ fuel) :
    pop_received_message timeout_sec clock fuel msgs = some (none, msgs) := by
  obtain ⟨n, rfl⟩ : ∃ n, fuel = n + 1 := ⟨fuel - 1, by omega⟩
  have hlt : ¬ (clock 1 - clock 0 < timeout_sec) := by
    have := hc 1
    intro hcon
    have : clock 1 - clock 0 < 0 := lt_of_lt_of_le hcon ht
    linarith
  simp [pop_received_message, pop_received_message.go, hlt]

/-- C10 witness: the theorem applied with timeout 0, a constant clock,
fuel 3 and a nonempty inbox. -/
theorem C10_nonpositive_timeout_pops_nothing_witness :
    pop_received_message 0 (fun _ => 5) 3 [[0x90, 0x3C, 0x7F]] =
      some (none, [[0x90, 0x3C, 0x7F]]) :=
  C10_nonpositive_timeout_pops_nothing 0 (fun _ => 5) 3 [[0x90, 0x3C, 0x7F]]
    (le_refl 0) (fun _ => le_refl 5) (by omega)
